import Mathlib

/-!
Verification of the streaming audio-encoding writer of
`moviepy/audio/io/ffmpeg_audiowriter.py` and of the geometry helper
`moviepy/video/fx/crop.py`, as a shallow embedding in Lean 4.

Python strings are `String`; the Python substring test `pat in text` is
`pyIn`; the subprocess, its pipes and the diagnostic sink are explicit
state; observable side effects (opening files, closing pipes, reaping the
process, progress messages) are recorded in an event trace; a raised
Python exception is an `Except.error` carrying the exception's kind.
-/

namespace MoviePy

/-- Python's substring test `pat in text`. -/
def pyIn (pat text : String) : Bool := decide (pat.data <:+: text.data)

/-- Python's `s.split(".")[-1]`, the file extension as computed by the
writer (splitting on the single character `.`). -/
def pyExt (s : String) : String :=
  String.mk (((s.data.splitOn (Char.ofNat 46)).getLast?).getD [])

/-- The external encoder binary name.  Modelled from the spec: the constant
`FFMPEG_BINARY` lives in `moviepy/config.py`, outside this fragment; its
value is irrelevant to every claim (only its position in the invocation
matters). -/
def FFMPEG_BINARY : String := "ffmpeg"

/-- The diagnostic sink of a writer: either the writer owns a capturable
pipe (`logfile` defaulted to `sp.PIPE`), or the caller supplied a file
sink; `contents` is what reading that file from the start yields at
failure time. -/
inductive DiagSink where
  | piped
  | fileBacked (contents : String)
  deriving DecidableEq

/-- The live subprocess handle (`self.proc`).  `stderrPiped` records
whether `Popen` was given `stderr=sp.PIPE`, i.e. whether `self.proc.stderr`
is a pipe object rather than `None`. -/
structure Proc where
  stderrPiped : Bool
  deriving DecidableEq

/-- The writer's state after `__init__`: the fields the methods read.
`proc = none` models both a writer whose construction raised before
`self.proc` was assigned (`hasattr` fails) and a writer already closed
(`self.proc = None`). -/
structure Writer where
  sink : DiagSink
  filename : String
  codec : String
  ext : String
  proc : Option Proc
  deriving DecidableEq

/-- Environmental data outside the program's control: what the encoder
process wrote to its captured diagnostic pipe, and what a session's
`filename + ".log"` file holds when read back. -/
structure Env where
  pipeOutput : String
  logContents : String
  deriving DecidableEq

/-- Observable side effects, in occurrence order. -/
inductive Event where
  | openLogfile
  | msgStart
  | spawn
  | wroteChunk
  | communicate
  | closeStdin
  | closeStderr
  | procWait
  | closeLogfile
  | msgDone
  deriving DecidableEq

/-- Outcome of the underlying `self.proc.stdin.write(...)` call: it either
succeeds or raises an `IOError` with the given message. -/
inductive WriteOutcome where
  | ok
  | brokenPipe (err : String)
  deriving DecidableEq

/-- The kinds of Python exception the embedded code can raise. -/
inductive PyErr where
  | ioError (msg : String)
  | attributeError
  | other (msg : String)
  deriving DecidableEq

/-- Arguments of `FFMPEG_AudioWriter.__init__`.  `logfile = none` models
the default (`logfile=None`, replaced by `sp.PIPE`); `logfile = some c`
models a caller-supplied file sink whose readable contents are `c`. -/
structure WriterCfg where
  filename : String
  fps_input : Nat
  nbytes : Nat
  nchannels : Nat
  codec : String
  bitrate : Option String
  input_video : Option String
  logfile : Option String
  ffmpeg_params : List String
  deriving DecidableEq

/-- The encoder invocation built in `__init__` ("order is important"):
the base list, then the `cmd.extend(...)` calls, in source order. -/
def ffmpegCmd (cfg : WriterCfg) : List String :=
  let cmd := [FFMPEG_BINARY, "-y",
    "-loglevel", if cfg.logfile.isNone then "error" else "info",
    "-f", "s" ++ toString (8 * cfg.nbytes) ++ "le",
    "-acodec", "pcm_s" ++ toString (8 * cfg.nbytes) ++ "le",
    "-ar", toString cfg.fps_input,
    "-ac", toString cfg.nchannels,
    "-i", "-"]
  let cmd := cmd ++ (match cfg.input_video with
    | none => ["-vn"]
    | some v => ["-i", v, "-vcodec", "copy"])
  let cmd := cmd ++ ["-acodec", cfg.codec] ++ ["-ar", toString cfg.fps_input]
  let cmd := cmd ++ ["-strict", "-2"]
  let cmd := cmd ++ (match cfg.bitrate with
    | none => []
    | some b => ["-ab", b])
  let cmd := cmd ++ cfg.ffmpeg_params
  cmd ++ [cfg.filename]

/-- `FFMPEG_AudioWriter.__init__`: stores the sink, filename, codec and
extension, and spawns the process with `stderr` connected to the sink
(a capturable pipe exactly when no sink was supplied). -/
def mkWriter (cfg : WriterCfg) : Writer :=
  { sink := match cfg.logfile with
      | none => DiagSink.piped
      | some c => DiagSink.fileBacked c
    filename := cfg.filename
    codec := cfg.codec
    ext := pyExt cfg.filename
    proc := some { stderrPiped := cfg.logfile.isNone } }

/-- The base composite message of `write_frames`'s error path:
`f"{err}\n\nMoviePy error: FFMPEG encountered the following error while
writing file {self.filename}:\n\n {ffmpeg_error}"`. -/
def baseErrorMsg (err filename ffmpegError : String) : String :=
  err ++ "\n\nMoviePy error: FFMPEG encountered the following error while writing file "
      ++ filename ++ ":\n\n " ++ ffmpegError

/-- Hint appended when the diagnostic text contains "Unknown encoder". -/
def unknownEncoderHint (codec : String) : String :=
  "\n\nThe audio export failed because FFMPEG didn\x27t find the "
    ++ "specified codec for audio encoding " ++ codec ++ ". "
    ++ "Please install this codec or change the codec when calling "
    ++ "write_videofile or write_audiofile.\nFor instance for mp3:\n"
    ++ "   >>> write_videofile(\x27myvid.mp4\x27, audio_codec=\x27libmp3lame\x27)"

/-- Hint appended when the diagnostic text contains
"incorrect codec parameters ?". -/
def codecParamsHint (codec ext : String) : String :=
  "\n\nThe audio export failed, possibly because the "
    ++ "codec specified for the video " ++ codec ++ " is not compatible"
    ++ " with the given extension " ++ ext ++ ". Please specify a "
    ++ "valid \x27codec\x27 argument in write_audiofile or \x27audio_codoc\x27"
    ++ "argument in write_videofile. This would be "
    ++ "\x27libmp3lame\x27 for mp3, \x27libvorbis\x27 for ogg..."

/-- Hint appended when the diagnostic text contains "bitrate not specified". -/
def bitrateHint : String :=
  "\n\nThe audio export failed, possibly because the "
    ++ "bitrate you specified was too high or too low for "
    ++ "the audio codec."

/-- Hint appended when the diagnostic text contains "Invalid encoder type". -/
def invalidEncoderHint : String :=
  "\n\nThe audio export failed because the codec "
    ++ "or file extension you provided is not suitable for audio"

/-- The `if/elif` marker chain of `write_frames`: the hint of the first
matching marker, or `""` when none matches. -/
def classifyHint (codec ext ffmpegError : String) : String :=
  if pyIn "Unknown encoder" ffmpegError then unknownEncoderHint codec
  else if pyIn "incorrect codec parameters ?" ffmpegError then codecParamsHint codec ext
  else if pyIn "bitrate not specified" ffmpegError then bitrateHint
  else if pyIn "Invalid encoder type" ffmpegError then invalidEncoderHint
  else ""

/-- The full message of the composite `IOError` raised by `write_frames`. -/
def compositeErrorMsg (err filename codec ext ffmpegError : String) : String :=
  baseErrorMsg err filename ffmpegError ++ classifyHint codec ext ffmpegError

/-- `FFMPEG_AudioWriter.write_frames`.  On a write failure: `communicate()`
reaps the process and yields the captured stderr exactly when stderr was
piped; otherwise the caller-supplied sink is seeked to 0 and read (were the
sink `sp.PIPE` here, `.seek` on an `int` would raise `AttributeError`);
then the composite `IOError` is raised.  On a closed or never-assigned
process, `self.proc.stdin` raises `AttributeError` before anything else. -/
def write_frames (w : Writer) (outcome : WriteOutcome) (env : Env) :
    Except PyErr Unit × List Event :=
  match w.proc with
  | none => (Except.error PyErr.attributeError, [])
  | some p =>
    match outcome with
    | WriteOutcome.ok => (Except.ok (), [Event.wroteChunk])
    | WriteOutcome.brokenPipe err =>
      let ffmpegErrOpt : Option String :=
        if p.stderrPiped then some env.pipeOutput else none
      match ffmpegErrOpt with
      | some fe =>
        (Except.error (PyErr.ioError (compositeErrorMsg err w.filename w.codec w.ext fe)),
         [Event.communicate])
      | none =>
        match w.sink with
        | DiagSink.piped => (Except.error PyErr.attributeError, [Event.communicate])
        | DiagSink.fileBacked c =>
          (Except.error (PyErr.ioError (compositeErrorMsg err w.filename w.codec w.ext c)),
           [Event.communicate])

/-- `FFMPEG_AudioWriter.close`: when a process handle is held, close stdin,
close the owned stderr pipe if any, wait on (reap) the process, and drop
the handle; otherwise do nothing. -/
def close (w : Writer) : Writer × List Event :=
  match w.proc with
  | none => (w, [])
  | some p =>
    ({ w with proc := none },
     [Event.closeStdin] ++ (if p.stderrPiped then [Event.closeStderr] else [])
       ++ [Event.procWait])

/-- `close` iterated `n` times, with the concatenated trace. -/
def closeTimes : Nat → Writer → Writer × List Event
  | 0, w => (w, [])
  | n + 1, w =>
    let c := close w
    let r := closeTimes n c.1
    (r.1, c.2 ++ r.2)

/-- `FFMPEG_AudioWriter.__enter__`: yields the writer itself. -/
def enterW (w : Writer) : Writer := w

/-- `FFMPEG_AudioWriter.__exit__`: calls `close` whatever the in-flight
exception state. -/
def exitW (w : Writer) : Writer × List Event := close w

/-- `FFMPEG_AudioWriter.__del__`: calls `close` defensively. -/
def delW (w : Writer) : Writer × List Event := close w

/-- A `with`-block over a writer: run the body on the entered writer, then
`__exit__` (i.e. `close`) runs whether the body returned or raised, and the
body's outcome is propagated unmodified. -/
def scopedRun (w : Writer) (body : Writer → Except PyErr Unit × Writer) :
    Except PyErr Unit × Writer × List Event :=
  let r := body (enterW w)
  let c := close r.2
  (r.1, c.1, c.2)

/-- One step of the frame source `clip.iter_chunks(...)`: it either yields
a chunk (whose write has the given outcome) or raises mid-iteration. -/
inductive SourceItem where
  | chunk (outcome : WriteOutcome)
  | sourceRaises (msg : String)
  deriving DecidableEq

/-- The session's write loop: `for chunk in clip.iter_chunks(...):
writer.write_frames(chunk)`.  A raised exception aborts the loop and
propagates. -/
def writeLoop (w : Writer) (env : Env) : List SourceItem → Except PyErr Unit × List Event
  | [] => (Except.ok (), [])
  | SourceItem.chunk oc :: rest =>
    match write_frames w oc env with
    | (Except.ok _, ev) =>
      let r := writeLoop w env rest
      (r.1, ev ++ r.2)
    | (Except.error e, ev) => (Except.error e, ev)
  | SourceItem.sourceRaises msg :: _ => (Except.error (PyErr.other msg), [])

/-- Arguments of `ffmpeg_audiowrite` that matter to its behaviour. -/
structure AudioWriteCfg where
  filename : String
  fps : Nat
  nbytes : Nat
  nchannels : Nat
  codec : String
  bitrate : Option String
  write_logfile : Bool
  ffmpeg_params : List String
  deriving DecidableEq

/-- The writer configuration `ffmpeg_audiowrite` passes to
`FFMPEG_AudioWriter`: the session's own log file (opened as
`filename + ".log"`, readable contents `env.logContents`) when
`write_logfile` is set, no sink otherwise; never an `input_video`. -/
def sessionWriterCfg (cfg : AudioWriteCfg) (env : Env) : WriterCfg :=
  { filename := cfg.filename
    fps_input := cfg.fps
    nbytes := cfg.nbytes
    nchannels := cfg.nchannels
    codec := cfg.codec
    bitrate := cfg.bitrate
    input_video := none
    logfile := if cfg.write_logfile then some env.logContents else none
    ffmpeg_params := cfg.ffmpeg_params }

/-- `ffmpeg_audiowrite`: open the log file if requested, emit the start
message, construct the writer, run the write loop; only on normal loop
completion call `writer.close()`, close the log file if requested and emit
the completion message — a raised exception propagates immediately past
all of those calls (there is no `try`/`finally` and no `with`). -/
def ffmpeg_audiowrite (cfg : AudioWriteCfg) (items : List SourceItem) (env : Env) :
    Except PyErr Unit × List Event :=
  let evOpen := if cfg.write_logfile then [Event.openLogfile] else []
  let w := mkWriter (sessionWriterCfg cfg env)
  match writeLoop w env items with
  | (Except.ok _, ev) =>
    let c := close w
    (Except.ok (),
     evOpen ++ [Event.msgStart, Event.spawn] ++ ev ++ c.2
       ++ (if cfg.write_logfile then [Event.closeLogfile] else []) ++ [Event.msgDone])
  | (Except.error e, ev) =>
    (Except.error e, evOpen ++ [Event.msgStart, Event.spawn] ++ ev)

/-- Arguments of `crop` (all default to `None`); Python floats and ints are
modelled as rationals. -/
structure CropArgs where
  x1 : Option ℚ := none
  y1 : Option ℚ := none
  x2 : Option ℚ := none
  y2 : Option ℚ := none
  width : Option ℚ := none
  height : Option ℚ := none
  x_center : Option ℚ := none
  y_center : Option ℚ := none
  deriving DecidableEq

/-- Python truthiness of an optional number: `None` and `0` are falsy. -/
def truthy : Option ℚ → Bool
  | none => false
  | some v => decide (v ≠ 0)

/-- Python `a or d` for an optional number `a`: `a` when truthy, else `d`. -/
def pyOrD (o : Option ℚ) (d : ℚ) : ℚ :=
  if truthy o then o.getD 0 else d

/-- Python `int(q)`: truncation toward zero. -/
def pyTrunc (q : ℚ) : ℤ := Int.tdiv q.num (q.den : ℤ)

/-- The rectangle handed to the frame slice
`frame[int(y1):int(y2), int(x1):int(x2)]`. -/
structure Region where
  rx1 : ℤ
  ry1 : ℤ
  rx2 : ℤ
  ry2 : ℤ
  deriving DecidableEq

/-- `crop(clip, ...)` of `moviepy/video/fx/crop.py`, for a clip of size
`(sizeW, sizeH)`, reduced to the rectangle it selects.  `none` models a
raised `TypeError` (`x_center - width / 2` with `width=None`). -/
def pyCrop (a : CropArgs) (sizeW sizeH : ℚ) : Option Region :=
  let xs : Option ℚ × Option ℚ :=
    if truthy a.width && a.x1.isSome then (a.x1, some (a.x1.getD 0 + a.width.getD 0))
    else if truthy a.width && a.x2.isSome then (some (a.x2.getD 0 - a.width.getD 0), a.x2)
    else (a.x1, a.x2)
  let ys : Option ℚ × Option ℚ :=
    if truthy a.height && a.y1.isSome then (a.y1, some (a.y1.getD 0 + a.height.getD 0))
    else if truthy a.height && a.y2.isSome then (some (a.y2.getD 0 - a.height.getD 0), a.y2)
    else (a.y1, a.y2)
  let xsC : Option (Option ℚ × Option ℚ) :=
    if truthy a.x_center then
      match a.width with
      | none => none
      | some wd =>
        some (some (a.x_center.getD 0 - wd / 2), some (a.x_center.getD 0 + wd / 2))
    else some xs
  let ysC : Option (Option ℚ × Option ℚ) :=
    if truthy a.y_center then
      match a.height with
      | none => none
      | some ht =>
        some (some (a.y_center.getD 0 - ht / 2), some (a.y_center.getD 0 + ht / 2))
    else some ys
  match xsC, ysC with
  | some (xa, xb), some (ya, yb) =>
    some { rx1 := pyTrunc (pyOrD xa 0)
           ry1 := pyTrunc (pyOrD ya 0)
           rx2 := pyTrunc (pyOrD xb sizeW)
           ry2 := pyTrunc (pyOrD yb sizeH) }
  | _, _ => none

/-- The spec's description of the diagnostic text embedded in the composite
error (stated from the spec, to be compared with what `write_frames`
computes): the captured pipe output when the diagnostic stream was piped,
otherwise the caller-supplied file sink's full contents read from the
start. -/
def claimedDiagText (cfg : WriterCfg) (env : Env) : String :=
  match cfg.logfile with
  | none => env.pipeOutput
  | some c => c

/-- A writer whose construction raised before `self.proc` was assigned. -/
def samplePartialWriter : Writer :=
  { sink := DiagSink.piped, filename := "out.mp3", codec := "libmp3lame",
    ext := "mp3", proc := none }

/-- A live writer with a captured diagnostic pipe. -/
def samplePipedWriter : Writer :=
  { sink := DiagSink.piped, filename := "out.mp3", codec := "libmp3lame",
    ext := "mp3", proc := some { stderrPiped := true } }

/-- A session configuration without a diagnostic log file. -/
def sessionPlainCfg : AudioWriteCfg :=
  { filename := "out.mp3", fps := 44100, nbytes := 2, nchannels := 2,
    codec := "libmp3lame", bitrate := none, write_logfile := false,
    ffmpeg_params := [] }

/-- A session configuration that requests a diagnostic log file. -/
def sessionLogCfg : AudioWriteCfg :=
  { sessionPlainCfg with write_logfile := true }

/-- A sample environment for concrete runs. -/
def sampleEnv : Env :=
  { pipeOutput := "Unknown encoder", logContents := "bitrate not specified" }

/-- A sample writer configuration with the default piped diagnostics. -/
def sampleWriterCfg : WriterCfg :=
  { filename := "out.mp3", fps_input := 44100, nbytes := 2, nchannels := 2,
    codec := "libmp3lame", bitrate := none, input_video := none,
    logfile := none, ffmpeg_params := [] }

/-! Helper lemmas shared by the claim theorems. -/

/-- A substring test succeeds on any infix. -/
theorem pyIn_of_infix {pat text : String} (h : pat.data <:+: text.data) :
    pyIn pat text = true := by
  simp [pyIn, h]

/-- Closing always leaves the writer without a process handle. -/
theorem close_drops_proc (w : Writer) : (close w).1.proc = none := by
  cases h : w.proc <;> simp [close, h]

/-- Closing a writer that holds no process handle does nothing. -/
theorem close_noop {w : Writer} (h : w.proc = none) : close w = (w, []) := by
  simp [close, h]

/-- Iterated closing of a writer without a process handle does nothing. -/
theorem closeTimes_noop {w : Writer} (h : w.proc = none) (n : Nat) :
    closeTimes n w = (w, []) := by
  induction n with
  | zero => rfl
  | succ m ih => simp [closeTimes, close, h, ih]

/-- Any positive number of `close` calls has exactly the effect of one. -/
theorem closeTimes_succ (w : Writer) (n : Nat) : closeTimes (n + 1) w = close w := by
  simp only [closeTimes]
  rw [closeTimes_noop (close_drops_proc w) n]
  simp

/-- C3: `close()` is idempotent and safe on a partially constructed writer:
any number of `close` calls equals a single one, a writer with no process
handle is closed without any action, after a close no process handle is
held, the close-stdin / close-stderr / wait sequence happens at most once
over any number of calls, and when a process is held a single close emits
exactly the close-pipe-then-reap sequence. -/
theorem close_idempotent (w : Writer) (n : Nat) :
    closeTimes (n + 1) w = close w
    ∧ (close w).1.proc = none
    ∧ (w.proc = none → close w = (w, []))
    ∧ (closeTimes n w).2.count Event.procWait ≤ 1
    ∧ (closeTimes n w).2.count Event.closeStdin ≤ 1
    ∧ (∀ p, w.proc = some p →
        (close w).2 = [Event.closeStdin]
          ++ (if p.stderrPiped then [Event.closeStderr] else [])
          ++ [Event.procWait]) := by
  have hcount : (close w).2.count Event.procWait ≤ 1
      ∧ (close w).2.count Event.closeStdin ≤ 1 := by
    rcases h : w.proc with _ | p
    · simp [close, h]
    · rcases p with ⟨b⟩
      cases b <;> simp [close, h]
  refine ⟨closeTimes_succ w n, close_drops_proc w, fun h => close_noop h, ?_, ?_, ?_⟩
  · cases n with
    | zero => simp [closeTimes]
    | succ m => rw [closeTimes_succ]; exact hcount.1
  · cases n with
    | zero => simp [closeTimes]
    | succ m => rw [closeTimes_succ]; exact hcount.2
  · intro p hp
    simp [close, hp]

/-- Witness for C3 at concrete writers: a partially constructed writer is
closed without any action, and a live piped writer emits the full
close-pipe-then-reap sequence. -/
theorem close_idempotent_witness :
    close samplePartialWriter = (samplePartialWriter, [])
    ∧ (close samplePipedWriter).2
        = [Event.closeStdin] ++ [Event.closeStderr] ++ [Event.procWait] := by
  constructor
  · exact (close_idempotent samplePartialWriter 0).2.2.1 rfl
  · have h := (close_idempotent samplePipedWriter 0).2.2.2.2.2
      { stderrPiped := true } rfl
    simpa using h

/-- C5: the encoder invocation lists its arguments in the specified order:
the raw little-endian PCM input-format flags (sample width, sample rate,
channel count) all precede the `-i -` marker; a given input video path is
declared as a second input followed by the video-copy instruction, and
otherwise video output is disabled with `-vn`; then the output codec, the
output sample rate, the strict-compliance relaxation, the optional
bitrate, the pass-through parameters verbatim in caller order, and the
output file path last. -/
theorem ffmpegCmd_order (cfg : WriterCfg) :
    ffmpegCmd cfg =
      [FFMPEG_BINARY, "-y", "-loglevel", if cfg.logfile.isNone then "error" else "info"]
        ++ ["-f", "s" ++ toString (8 * cfg.nbytes) ++ "le",
            "-acodec", "pcm_s" ++ toString (8 * cfg.nbytes) ++ "le",
            "-ar", toString cfg.fps_input,
            "-ac", toString cfg.nchannels]
        ++ ["-i", "-"]
        ++ (match cfg.input_video with
            | none => ["-vn"]
            | some v => ["-i", v, "-vcodec", "copy"])
        ++ ["-acodec", cfg.codec] ++ ["-ar", toString cfg.fps_input]
        ++ ["-strict", "-2"]
        ++ (match cfg.bitrate with
            | none => []
            | some b => ["-ab", b])
        ++ cfg.ffmpeg_params
        ++ [cfg.filename]
    ∧ (ffmpegCmd cfg).getLast? = some cfg.filename := by
  constructor
  · simp [ffmpegCmd]
  · simp only [ffmpegCmd]
    exact List.getLast?_concat _

/-- C9: the invocation's log level (4th argument) is `error` exactly when
no diagnostic sink was supplied (diagnostics captured on an internal
pipe), and `info` when a caller-supplied sink is given. -/
theorem ffmpegCmd_loglevel (cfg : WriterCfg) :
    (ffmpegCmd cfg)[3]? = some (if cfg.logfile.isNone then "error" else "info")
    ∧ ((ffmpegCmd cfg)[3]? = some "error" ↔ cfg.logfile = none) := by
  cases h : cfg.logfile <;> simp [ffmpegCmd, h]

/-- C6: entering the scope yields the writer itself; exiting the scope,
whether the body returned normally or raised, propagates the body's
outcome unmodified while always running `close()`, after which no process
handle is held; abandonment triggers the finalizer, which also calls
`close()` and tolerates a partially failed construction. -/
theorem scoped_release (w : Writer) (body : Writer → Except PyErr Unit × Writer) :
    enterW w = w
    ∧ (scopedRun w body).1 = (body w).1
    ∧ (scopedRun w body).2.2 = (close (body w).2).2
    ∧ (scopedRun w body).2.1.proc = none
    ∧ delW w = close w
    ∧ (w.proc = none → delW w = (w, [])) := by
  refine ⟨rfl, rfl, rfl, close_drops_proc _, rfl, fun h => ?_⟩
  simp [delW, close_noop h]

/-- Witness for C6 at a concrete writer and a body that raises: the error
is propagated unmodified and the finalizer tolerates a writer whose
construction never completed. -/
theorem scoped_release_witness :
    (scopedRun samplePipedWriter
        (fun v => (Except.error (PyErr.other "mid-stream"), v))).1
      = Except.error (PyErr.other "mid-stream")
    ∧ delW samplePartialWriter = (samplePartialWriter, []) := by
  constructor
  · exact (scoped_release samplePipedWriter
      (fun v => (Except.error (PyErr.other "mid-stream"), v))).2.1
  · exact (scoped_release samplePartialWriter (fun v => (Except.ok (), v))).2.2.2.2.2 rfl

/-- C8: once `close()` has completed, a further `write` call fails with an
`AttributeError` (`self.proc` is `None`), never with the classified
composite `IOError`, and performs no diagnostic collection. -/
theorem write_after_close (w : Writer) (oc : WriteOutcome) (env : Env) :
    write_frames (close w).1 oc env = (Except.error PyErr.attributeError, [])
    ∧ (∀ m, (write_frames (close w).1 oc env).1 ≠ Except.error (PyErr.ioError m))
    ∧ (write_frames (close w).1 oc env).2.count Event.communicate = 0 := by
  have h : (close w).1.proc = none := close_drops_proc w
  have heq : write_frames (close w).1 oc env = (Except.error PyErr.attributeError, []) := by
    simp [write_frames, h]
  refine ⟨heq, fun m => ?_, ?_⟩ <;> rw [heq] <;> simp

/-- C2: the diagnostic-text classification checks the four markers in the
fixed priority order `Unknown encoder`, `incorrect codec parameters ?`,
`bitrate not specified`, `Invalid encoder type`; exactly the first
matching marker's hint is appended to the base message (a text matching
both of the first two markers gets only the unknown-codec hint), and a
text matching none gets the base message alone. -/
theorem classify_priority (err filename codec ext text : String) :
    compositeErrorMsg err filename codec ext text
      = baseErrorMsg err filename text ++ classifyHint codec ext text
    ∧ (pyIn "Unknown encoder" text = true →
        classifyHint codec ext text = unknownEncoderHint codec)
    ∧ (pyIn "Unknown encoder" text = true →
        pyIn "incorrect codec parameters ?" text = true →
        compositeErrorMsg err filename codec ext text
          = baseErrorMsg err filename text ++ unknownEncoderHint codec)
    ∧ (pyIn "Unknown encoder" text = false →
        pyIn "incorrect codec parameters ?" text = true →
        classifyHint codec ext text = codecParamsHint codec ext)
    ∧ (pyIn "Unknown encoder" text = false →
        pyIn "incorrect codec parameters ?" text = false →
        pyIn "bitrate not specified" text = true →
        classifyHint codec ext text = bitrateHint)
    ∧ (pyIn "Unknown encoder" text = false →
        pyIn "incorrect codec parameters ?" text = false →
        pyIn "bitrate not specified" text = false →
        pyIn "Invalid encoder type" text = true →
        classifyHint codec ext text = invalidEncoderHint)
    ∧ (pyIn "Unknown encoder" text = false →
        pyIn "incorrect codec parameters ?" text = false →
        pyIn "bitrate not specified" text = false →
        pyIn "Invalid encoder type" text = false →
        compositeErrorMsg err filename codec ext text = baseErrorMsg err filename text) := by
  refine ⟨rfl, ?_, ?_, ?_, ?_, ?_, ?_⟩
  · intro h1
    simp [classifyHint, h1]
  · intro h1 _
    simp [compositeErrorMsg, classifyHint, h1]
  · intro h1 h2
    simp [classifyHint, h1, h2]
  · intro h1 h2 h3
    simp [classifyHint, h1, h2, h3]
  · intro h1 h2 h3 h4
    simp [classifyHint, h1, h2, h3, h4]
  · intro h1 h2 h3 h4
    simp [compositeErrorMsg, classifyHint, h1, h2, h3, h4]

/-- Witness for C2 at concrete diagnostic texts, one per classification
branch; in particular a text containing both of the first two markers gets
only the unknown-codec hint. -/
theorem classify_priority_witness :
    compositeErrorMsg "e" "f.mp4" "aac" "mp4"
        "A Unknown encoder B incorrect codec parameters ? C"
      = baseErrorMsg "e" "f.mp4" "A Unknown encoder B incorrect codec parameters ? C"
          ++ unknownEncoderHint "aac"
    ∧ classifyHint "aac" "mp4" "B incorrect codec parameters ? C"
        = codecParamsHint "aac" "mp4"
    ∧ classifyHint "aac" "mp4" "B bitrate not specified C" = bitrateHint
    ∧ classifyHint "aac" "mp4" "B Invalid encoder type C" = invalidEncoderHint
    ∧ compositeErrorMsg "e" "f.mp4" "aac" "mp4" "conversion successful"
        = baseErrorMsg "e" "f.mp4" "conversion successful" := by
  refine ⟨?_, ?_, ?_, ?_, ?_⟩
  · exact (classify_priority "e" "f.mp4" "aac" "mp4" _).2.2.1 (by decide) (by decide)
  · exact (classify_priority "e" "f.mp4" "aac" "mp4" _).2.2.2.1 (by decide) (by decide)
  · exact (classify_priority "e" "f.mp4" "aac" "mp4" _).2.2.2.2.1
      (by decide) (by decide) (by decide)
  · exact (classify_priority "e" "f.mp4" "aac" "mp4" _).2.2.2.2.2.1
      (by decide) (by decide) (by decide) (by decide)
  · exact (classify_priority "e" "f.mp4" "aac" "mp4" _).2.2.2.2.2.2
      (by decide) (by decide) (by decide) (by decide)

/-- C1: on every write failure of a constructed writer, `write_frames`
reaps the process while collecting diagnostics (`communicate`), raises
exactly one composite `IOError`, its diagnostic text is the captured pipe
output when the diagnostic stream was piped and otherwise the caller
supplied file sink's contents read from the start, and the message embeds
the original low-level failure, the target file path and that diagnostic
text. -/
theorem write_failure_composite (cfg : WriterCfg) (env : Env) (err : String) :
    write_frames (mkWriter cfg) (WriteOutcome.brokenPipe err) env
      = (Except.error (PyErr.ioError (compositeErrorMsg err cfg.filename cfg.codec
          (pyExt cfg.filename) (claimedDiagText cfg env))), [Event.communicate])
    ∧ pyIn err (compositeErrorMsg err cfg.filename cfg.codec
        (pyExt cfg.filename) (claimedDiagText cfg env)) = true
    ∧ pyIn cfg.filename (compositeErrorMsg err cfg.filename cfg.codec
        (pyExt cfg.filename) (claimedDiagText cfg env)) = true
    ∧ pyIn (claimedDiagText cfg env) (compositeErrorMsg err cfg.filename cfg.codec
        (pyExt cfg.filename) (claimedDiagText cfg env)) = true := by
  refine ⟨?_, ?_, ?_, ?_⟩
  · cases h : cfg.logfile <;> simp [write_frames, mkWriter, claimedDiagText, h]
  · apply pyIn_of_infix
    simp only [compositeErrorMsg, baseErrorMsg, String.data_append, List.append_assoc]
    exact (List.prefix_append _ _).isInfix
  · apply pyIn_of_infix
    simp only [compositeErrorMsg, baseErrorMsg, String.data_append, List.append_assoc]
    exact ⟨err.data
        ++ "\n\nMoviePy error: FFMPEG encountered the following error while writing file ".data,
      (":\n\n ").data ++ (claimedDiagText cfg env).data
        ++ (classifyHint cfg.codec (pyExt cfg.filename) (claimedDiagText cfg env)).data,
      by simp⟩
  · apply pyIn_of_infix
    simp only [compositeErrorMsg, baseErrorMsg, String.data_append, List.append_assoc]
    exact ⟨err.data
        ++ "\n\nMoviePy error: FFMPEG encountered the following error while writing file ".data
        ++ cfg.filename.data ++ (":\n\n ").data,
      (classifyHint cfg.codec (pyExt cfg.filename) (claimedDiagText cfg env)).data,
      by simp⟩

/-- Witness for C1 at a concrete configuration and failure: the composite
message embeds the low-level failure text. -/
theorem write_failure_composite_witness :
    pyIn "Broken pipe" (compositeErrorMsg "Broken pipe" sampleWriterCfg.filename
      sampleWriterCfg.codec (pyExt sampleWriterCfg.filename)
      (claimedDiagText sampleWriterCfg sampleEnv)) = true :=
  (write_failure_composite sampleWriterCfg sampleEnv "Broken pipe").2.1

/-- Witness for C5 at a concrete configuration: the output file path comes
last. -/
theorem ffmpegCmd_order_witness :
    (ffmpegCmd sampleWriterCfg).getLast? = some sampleWriterCfg.filename :=
  (ffmpegCmd_order sampleWriterCfg).2

/-- Witness for C9 at a concrete configuration without a sink: the log
level is `error`. -/
theorem ffmpegCmd_loglevel_witness :
    (ffmpegCmd sampleWriterCfg)[3]? = some "error" :=
  (ffmpegCmd_loglevel sampleWriterCfg).2.mpr rfl

/-- Witness for C8 at a concrete closed writer: the failure is an
`AttributeError`, not the classified composite error. -/
theorem write_after_close_witness :
    write_frames (close samplePipedWriter).1 WriteOutcome.ok sampleEnv
      = (Except.error PyErr.attributeError, []) :=
  (write_after_close samplePipedWriter WriteOutcome.ok sampleEnv).1

/-- A single `write_frames` call emits no trace, a chunk event, or a
`communicate` event — never any close-side event. -/
theorem writeFrames_trace_cases (w : Writer) (oc : WriteOutcome) (env : Env) :
    (write_frames w oc env).2 = [] ∨ (write_frames w oc env).2 = [Event.wroteChunk]
    ∨ (write_frames w oc env).2 = [Event.communicate] := by
  rcases h : w.proc with _ | p
  · simp [write_frames, h]
  · rcases oc with _ | err
    · simp [write_frames, h]
    · rcases hb : p.stderrPiped
      · rcases hs : w.sink <;> simp [write_frames, h, hb, hs]
      · simp [write_frames, h, hb]

/-- The write loop emits only chunk and `communicate` events. -/
theorem writeLoop_count_zero (w : Writer) (env : Env) (items : List SourceItem) (x : Event)
    (h1 : x ≠ Event.wroteChunk) (h2 : x ≠ Event.communicate) :
    (writeLoop w env items).2.count x = 0 := by
  induction items with
  | nil => simp [writeLoop]
  | cons it rest ih =>
    rcases it with oc | msg
    · rcases hw : write_frames w oc env with ⟨r, ev⟩
      have hev : ev = [] ∨ ev = [Event.wroteChunk] ∨ ev = [Event.communicate] := by
        have hc := writeFrames_trace_cases w oc env
        rw [hw] at hc
        exact hc
      have hev0 : ev.count x = 0 := by
        rcases hev with h | h | h <;> subst h <;>
          simp [List.count_eq_zero, h1, h2]
      rcases r with e | u
      · simp [writeLoop, hw, hev0]
      · simp [writeLoop, hw, List.count_append, hev0, ih]
    · simp [writeLoop]

/-- C4 as corrected: when the session run fails (a write fails or the
frame source raises mid-iteration), the error of the write loop is
propagated unmodified, but the session never runs `close()` on the writer
(no close-stdin, no process wait) and never closes its log file — the
writer is not used via scoped acquisition, so cleanup is left to the
finalizer. -/
theorem session_failure_no_close (cfg : AudioWriteCfg) (items : List SourceItem)
    (env : Env) (e : PyErr)
    (h : (ffmpeg_audiowrite cfg items env).1 = Except.error e) :
    (writeLoop (mkWriter (sessionWriterCfg cfg env)) env items).1 = Except.error e
    ∧ (ffmpeg_audiowrite cfg items env).2.count Event.closeStdin = 0
    ∧ (ffmpeg_audiowrite cfg items env).2.count Event.procWait = 0
    ∧ (ffmpeg_audiowrite cfg items env).2.count Event.closeLogfile = 0 := by
  rcases hw : writeLoop (mkWriter (sessionWriterCfg cfg env)) env items with ⟨r, ev⟩
  have hev : ∀ x : Event, x ≠ Event.wroteChunk → x ≠ Event.communicate → ev.count x = 0 := by
    intro x h1 h2
    have hc := writeLoop_count_zero (mkWriter (sessionWriterCfg cfg env)) env items x h1 h2
    rw [hw] at hc
    exact hc
  rcases r with e' | u
  · have hrun : ffmpeg_audiowrite cfg items env
        = (Except.error e',
           (if cfg.write_logfile then [Event.openLogfile] else [])
             ++ [Event.msgStart, Event.spawn] ++ ev) := by
      simp [ffmpeg_audiowrite, hw]
    rw [hrun] at h
    have he : e' = e := by
      simpa using h
    subst he
    have h1 : ev.count Event.closeStdin = 0 := hev Event.closeStdin (by decide) (by decide)
    have h2 : ev.count Event.procWait = 0 := hev Event.procWait (by decide) (by decide)
    have h3 : ev.count Event.closeLogfile = 0 := hev Event.closeLogfile (by decide) (by decide)
    refine ⟨rfl, ?_, ?_, ?_⟩ <;> rw [hrun] <;>
      cases cfg.write_logfile <;>
        simp [List.count_append, List.count_cons, h1, h2, h3]
  · exfalso
    have hrun : (ffmpeg_audiowrite cfg items env).1 = Except.ok () := by
      simp [ffmpeg_audiowrite, hw]
    rw [hrun] at h
    exact Except.noConfusion h

/-- Counterexample to C4 as stated: a concrete session whose frame source
raises mid-iteration propagates the error, yet the close-pipe-then-reap
sequence has not been run at all — `close()` did not run exactly once. -/
theorem session_failure_counterexample :
    (ffmpeg_audiowrite sessionPlainCfg
        [SourceItem.sourceRaises "frame source failed"] sampleEnv).1
      = Except.error (PyErr.other "frame source failed")
    ∧ ¬ ((ffmpeg_audiowrite sessionPlainCfg
          [SourceItem.sourceRaises "frame source failed"] sampleEnv).2.count
            Event.closeStdin = 1) := by
  constructor
  · rfl
  · decide

/-- Witness for the corrected C4 at a concrete failing run. -/
theorem session_failure_no_close_witness :
    (writeLoop (mkWriter (sessionWriterCfg sessionPlainCfg sampleEnv)) sampleEnv
        [SourceItem.sourceRaises "mid-iteration"]).1
      = Except.error (PyErr.other "mid-iteration")
    ∧ (ffmpeg_audiowrite sessionPlainCfg
        [SourceItem.sourceRaises "mid-iteration"] sampleEnv).2.count
          Event.closeStdin = 0 := by
  have h := session_failure_no_close sessionPlainCfg
    [SourceItem.sourceRaises "mid-iteration"] sampleEnv
    (PyErr.other "mid-iteration") rfl
  exact ⟨h.1, h.2.1⟩

/-- C7 as corrected: when a diagnostic log file is requested the session
opens it before constructing the writer (the trace starts open-logfile,
start-message, spawn), and on successful completion closes it after the
writer has closed; but on a failing run the log file is never closed —
closure happens on the success path only. -/
theorem session_logfile_lifecycle (cfg : AudioWriteCfg) (items : List SourceItem)
    (env : Env) (hlog : cfg.write_logfile = true) :
    (∃ ev, (ffmpeg_audiowrite cfg items env).2
        = Event.openLogfile :: Event.msgStart :: Event.spawn :: ev)
    ∧ ((ffmpeg_audiowrite cfg items env).1 = Except.ok () →
        (ffmpeg_audiowrite cfg items env).2
          = [Event.openLogfile, Event.msgStart, Event.spawn]
            ++ (writeLoop (mkWriter (sessionWriterCfg cfg env)) env items).2
            ++ (close (mkWriter (sessionWriterCfg cfg env))).2
            ++ [Event.closeLogfile, Event.msgDone])
    ∧ (∀ e, (ffmpeg_audiowrite cfg items env).1 = Except.error e →
        (ffmpeg_audiowrite cfg items env).2.count Event.closeLogfile = 0) := by
  rcases hw : writeLoop (mkWriter (sessionWriterCfg cfg env)) env items with ⟨r, ev⟩
  have hev : ev.count Event.closeLogfile = 0 := by
    have hc := writeLoop_count_zero (mkWriter (sessionWriterCfg cfg env)) env items
      Event.closeLogfile (by decide) (by decide)
    rw [hw] at hc
    exact hc
  rcases r with e' | u
  · have hrun : ffmpeg_audiowrite cfg items env
        = (Except.error e',
           [Event.openLogfile] ++ [Event.msgStart, Event.spawn] ++ ev) := by
      simp [ffmpeg_audiowrite, hw, hlog]
    refine ⟨⟨ev, by rw [hrun]; rfl⟩, ?_, ?_⟩
    · intro hok
      rw [hrun] at hok
      exact absurd hok (by simp)
    · intro e _
      rw [hrun]
      simp [List.count_append, List.count_cons, hev]
  · have hrun : ffmpeg_audiowrite cfg items env
        = (Except.ok (),
           [Event.openLogfile] ++ [Event.msgStart, Event.spawn] ++ ev
             ++ (close (mkWriter (sessionWriterCfg cfg env))).2
             ++ [Event.closeLogfile] ++ [Event.msgDone]) := by
      simp [ffmpeg_audiowrite, hw, hlog]
    refine ⟨⟨ev ++ (close (mkWriter (sessionWriterCfg cfg env))).2
        ++ [Event.closeLogfile] ++ [Event.msgDone], by rw [hrun]; simp⟩, ?_, ?_⟩
    · intro _
      rw [hrun]
      simp [List.append_assoc]
    · intro e he
      rw [hrun] at he
      exact absurd he (by simp)

/-- Counterexample to C7 as stated: a concrete session with a requested
log file whose single write fails raises the composite error, has opened
the log file, and never closes it — closure does not happen on every
outcome. -/
theorem session_logfile_counterexample :
    (ffmpeg_audiowrite sessionLogCfg
        [SourceItem.chunk (WriteOutcome.brokenPipe "broken pipe")] sampleEnv).1
      = Except.error (PyErr.ioError (compositeErrorMsg "broken pipe" "out.mp3"
          "libmp3lame" "mp3" "bitrate not specified"))
    ∧ (ffmpeg_audiowrite sessionLogCfg
        [SourceItem.chunk (WriteOutcome.brokenPipe "broken pipe")] sampleEnv).2.count
          Event.openLogfile = 1
    ∧ (ffmpeg_audiowrite sessionLogCfg
        [SourceItem.chunk (WriteOutcome.brokenPipe "broken pipe")] sampleEnv).2.count
          Event.closeLogfile = 0 := by
  refine ⟨rfl, ?_, ?_⟩ <;> decide

/-- Witness for the corrected C7 at a concrete successful run: the log
file is opened before the spawn and closed after the writer's
close-pipe-then-reap sequence. -/
theorem session_logfile_lifecycle_witness :
    (ffmpeg_audiowrite sessionLogCfg [SourceItem.chunk WriteOutcome.ok] sampleEnv).2
      = [Event.openLogfile, Event.msgStart, Event.spawn, Event.wroteChunk,
         Event.closeStdin, Event.procWait, Event.closeLogfile, Event.msgDone] := by
  have h := (session_logfile_lifecycle sessionLogCfg
    [SourceItem.chunk WriteOutcome.ok] sampleEnv rfl).2.1 rfl
  rw [h]
  rfl

/-- An absent optional number is falsy. -/
theorem truthy_none : truthy none = false := rfl

/-- A zero optional number is falsy, like an absent one. -/
theorem truthy_some_zero : truthy (some 0) = false := by
  simp [truthy]

/-- C10: the crop helper treats zero-valued coordinate arguments as
absent: `x2=0` (resp. `y2=0`) alone selects the full frame, which is also
what no arguments at all select; and a zero `x_center`, `y_center`,
`width` or `height` behaves exactly as if the argument had been omitted
(for `width`/`height` whenever the corresponding center argument is not
truthy, where an omitted value would instead raise). -/
theorem crop_zero_as_absent (w h : ℚ) :
    pyCrop { x2 := some 0 } w h = pyCrop {} w h
    ∧ pyCrop { y2 := some 0 } w h = pyCrop {} w h
    ∧ pyCrop {} w h = some { rx1 := 0, ry1 := 0, rx2 := pyTrunc w, ry2 := pyTrunc h }
    ∧ (∀ a : CropArgs,
        pyCrop { a with x_center := some 0 } w h = pyCrop { a with x_center := none } w h)
    ∧ (∀ a : CropArgs,
        pyCrop { a with y_center := some 0 } w h = pyCrop { a with y_center := none } w h)
    ∧ (∀ a : CropArgs, truthy a.x_center = false →
        pyCrop { a with width := some 0 } w h = pyCrop { a with width := none } w h)
    ∧ (∀ a : CropArgs, truthy a.y_center = false →
        pyCrop { a with height := some 0 } w h = pyCrop { a with height := none } w h) := by
  have hz : pyTrunc 0 = 0 := rfl
  refine ⟨?_, ?_, ?_, ?_, ?_, ?_, ?_⟩
  · simp [pyCrop, truthy_none, truthy_some_zero, pyOrD]
  · simp [pyCrop, truthy_none, truthy_some_zero, pyOrD]
  · simp [pyCrop, truthy_none, pyOrD, hz]
  · intro a
    rcases a with ⟨x1, y1, x2, y2, wd, ht, xc, yc⟩
    simp [pyCrop, truthy_none, truthy_some_zero]
  · intro a
    rcases a with ⟨x1, y1, x2, y2, wd, ht, xc, yc⟩
    simp [pyCrop, truthy_none, truthy_some_zero]
  · intro a hxc
    rcases a with ⟨x1, y1, x2, y2, wd, ht, xc, yc⟩
    simp [pyCrop, truthy_none, truthy_some_zero, hxc]
  · intro a hyc
    rcases a with ⟨x1, y1, x2, y2, wd, ht, xc, yc⟩
    simp [pyCrop, truthy_none, truthy_some_zero, hyc]

/-- Witness for C10 at a concrete frame size: zero `width`/`height` with
no center argument behave as if omitted. -/
theorem crop_zero_as_absent_witness :
    pyCrop { width := some 0 } 640 480 = pyCrop {} 640 480
    ∧ pyCrop { height := some 0 } 640 480 = pyCrop {} 640 480 := by
  constructor
  · exact (crop_zero_as_absent 640 480).2.2.2.2.2.1 {} rfl
  · exact (crop_zero_as_absent 640 480).2.2.2.2.2.2 {} rfl

end MoviePy
